import Mathlib

/-!
Verification of the PhDC (Pi-hole display controller) confirmation state
machine against its natural-language specification.

The development shallowly embeds the Python sources:
  * `src/services/system.py`   — `SystemOs.handle_button4_held`
  * `src/services/pihole.py`   — the `PiHole` confirmation flow
  * `src/hardware/button.py`   — `ButtonHandler` callback wiring
  * `main.py`                  — the button-event routing installed in `main`

Hold durations are modelled as rationals (Python floats in the source).
Side effects (timer starts/cancels, display switches, subprocess runs,
printed messages) are recorded as explicit effect traces; results of
external calls (display switches, subprocess exit states) are inputs.
-/

/-- Exit state of an external subprocess invocation: exited 0, exited
non-zero, or raised `subprocess.SubprocessError`. -/
inductive SubprocResult
  | ok
  | nonzero
  | err
  deriving DecidableEq, Repr

/-- Actions the `SystemOs` controller can invoke. -/
inductive SysAction
  | reboot
  | shutdown
  deriving DecidableEq, Repr

/-- `SystemOs.handle_button4_held` (src/services/system.py, lines 38-54):
`if hold_time < 2.0: return; elif hold_time >= 5.0: shutdown_system();
else: reboot_system()`.  The function receives the single hold duration
measured at release and compares it against the thresholds once. -/
def SystemOs.handle_button4_held (hold_time : ℚ) : Option SysAction :=
  if hold_time < 2 then none
  else if hold_time ≥ 5 then some SysAction.shutdown
  else some SysAction.reboot

/-! ## ButtonHandler (src/hardware/button.py)

`_setup_callbacks` wires gpiozero's `when_pressed` / `when_released`
slots from the optional press and hold callbacks; `_on_press` records the
press time into `_hold_start`, `_on_release` computes the hold duration
and fires the hold callback when a press was recorded. -/

/-- What `self.button.when_pressed` holds after `_setup_callbacks`. -/
inductive PressSlot
  | pressCb
  | onPress
  | empty
  deriving DecidableEq, Repr

/-- What `self.button.when_released` holds after `_setup_callbacks`. -/
inductive ReleaseSlot
  | onRelease
  | empty
  deriving DecidableEq, Repr

/-- Callback invocations observable from a `ButtonHandler`. -/
inductive BEff
  | pressCb
  | holdCb (duration : ℚ)
  deriving DecidableEq, Repr

/-- `_setup_callbacks`, press slot: `if press_callback and not
hold_callback: when_pressed = press_callback`; then `if hold_callback:
when_pressed = self._on_press` (overwriting). -/
def ButtonHandler.whenPressedSlot (press_callback hold_callback : Bool) : PressSlot :=
  let slot := if press_callback && !hold_callback then PressSlot.pressCb else PressSlot.empty
  if hold_callback then PressSlot.onPress else slot

/-- `_setup_callbacks`, release slot: set to `_on_release(hold_callback)`
exactly when a hold callback is given. -/
def ButtonHandler.whenReleasedSlot (hold_callback : Bool) : ReleaseSlot :=
  if hold_callback then ReleaseSlot.onRelease else ReleaseSlot.empty

/-- A physical press at time `t` delivered to the configured
`when_pressed` slot; the state is `_hold_start`. `_on_press` stores the
current time; a directly-wired press callback fires it. -/
def ButtonHandler.onPressEvent (press_callback hold_callback : Bool)
    (hold_start : Option ℚ) (t : ℚ) : Option ℚ × List BEff :=
  match ButtonHandler.whenPressedSlot press_callback hold_callback with
  | PressSlot.pressCb => (hold_start, [BEff.pressCb])
  | PressSlot.onPress => (some t, [])
  | PressSlot.empty => (hold_start, [])

/-- A physical release at time `t` delivered to the configured
`when_released` slot. `_on_release`: if `_hold_start` is not `None`,
compute `time.time() - _hold_start`, reset `_hold_start = None`, fire the
hold callback with the duration; otherwise do nothing. -/
def ButtonHandler.onReleaseEvent (hold_callback : Bool)
    (hold_start : Option ℚ) (t : ℚ) : Option ℚ × List BEff :=
  match ButtonHandler.whenReleasedSlot hold_callback with
  | ReleaseSlot.onRelease =>
    match hold_start with
    | some t0 => (none, [BEff.holdCb (t - t0)])
    | none => (hold_start, [])
  | ReleaseSlot.empty => (hold_start, [])

/-! ## PiHole confirmation flow (src/services/pihole.py)

State: `_waiting_for_confirmation : bool` and `_confirmation_timer :
Optional[Timer]`.  `Timer` objects are identified by a fresh natural
number; `live` tracks the timer objects that have been started and not
cancelled (cancelling the one held in `_confirmation_timer` removes it).
Side effects are recorded in an effect trace. -/

/-- Observable side effects of the `PiHole` flow. -/
inductive Eff
  | timerStart (id : Nat)
  | timerCancel (id : Nat)
  | logTimerExpired
  | printUpdateCancelled
  | showGravityScreen
  | showPiholeScreen
  | runGravity
  | printGravitySuccess
  | printGravityFailed
  | printGravityError
  | runUpdateCheck
  | runPiholeUpdate
  | logUpdateCheckFailed
  | logPiholeUpdateSuccess
  | logPiholeUpdateFailed
  | raiseServiceError
  | sleepFeedback
  | switchToPadd
  deriving DecidableEq, Repr

/-- The mutable state of a `PiHole` instance, plus bookkeeping of the
timer objects created so far (`live` = started and not cancelled,
`nextId` = next fresh timer identity). -/
structure PiHoleState where
  waiting : Bool
  timer : Option Nat
  live : List Nat
  nextId : Nat
  deriving DecidableEq, Repr

/-- `PiHole.__init__`: `_waiting_for_confirmation = False`,
`_confirmation_timer = None`. -/
def PiHole.init : PiHoleState :=
  { waiting := false, timer := none, live := [], nextId := 0 }

/-- `_clear_confirmation_timer`: if a timer object is held, cancel it and
set the field to `None`. -/
def PiHole.clear_confirmation_timer (st : PiHoleState) : PiHoleState × List Eff :=
  match st.timer with
  | some id => ({ st with timer := none, live := st.live.erase id }, [Eff.timerCancel id])
  | none => (st, [])

/-- `_start_confirmation_timer`: always clear any existing timer first,
then create and start a fresh `Timer(CONFIRMATION_TIMEOUT, _handle_timeout)`. -/
def PiHole.start_confirmation_timer (st : PiHoleState) : PiHoleState × List Eff :=
  let (st1, e1) := PiHole.clear_confirmation_timer st
  ({ st1 with timer := some st1.nextId, live := st1.live ++ [st1.nextId],
              nextId := st1.nextId + 1 },
   e1 ++ [Eff.timerStart st1.nextId])

/-- `_clear_confirmation_state`: clear the timer, then reset
`_waiting_for_confirmation = False`. -/
def PiHole.clear_confirmation_state (st : PiHoleState) : PiHoleState × List Eff :=
  let (st1, e1) := PiHole.clear_confirmation_timer st
  ({ st1 with waiting := false }, e1)

/-- `cancel_update`: only when `_waiting_for_confirmation` — print the
cancellation message, clear the confirmation state, sleep
`FEEDBACK_DELAY`, switch the display back to PADD; otherwise nothing. -/
def PiHole.cancel_update (st : PiHoleState) : PiHoleState × List Eff :=
  if st.waiting then
    let (st1, e1) := PiHole.clear_confirmation_state st
    (st1, Eff.printUpdateCancelled :: e1 ++ [Eff.sleepFeedback, Eff.switchToPadd])
  else (st, [])

/-- `_handle_timeout`: log "Confirmation timer expired", then
`cancel_update`. -/
def PiHole.handle_timeout (st : PiHoleState) : PiHoleState × List Eff :=
  let (st1, e1) := PiHole.cancel_update st
  (st1, Eff.logTimerExpired :: e1)

/-- `update_gravity`: run `sudo pihole -g` (outcome `r` is an input),
report success / failure / subprocess error, and in the `finally` block
sleep `FEEDBACK_DELAY` and switch the display back to PADD.  It does not
touch the confirmation state. -/
def PiHole.update_gravity (r : SubprocResult) : List Eff :=
  Eff.runGravity ::
  (match r with
   | SubprocResult.ok => [Eff.printGravitySuccess]
   | SubprocResult.nonzero => [Eff.printGravityFailed]
   | SubprocResult.err => [Eff.printGravityError]) ++
  [Eff.sleepFeedback, Eff.switchToPadd]

/-- `update_pihole`: run the update check (`sudo pihole -up
--check-only`, outcome `rc`); on non-zero exit log and return; on
subprocess error log and raise `ServiceError`;  otherwise run the update
(`sudo pihole -up`, outcome `ru`) and log its success or failure, raising
`ServiceError` on a subprocess error.  The returned flag records whether
`ServiceError` was raised.  No path switches the display. -/
def PiHole.update_pihole (rc ru : SubprocResult) : List Eff × Bool :=
  match rc with
  | SubprocResult.err => ([Eff.runUpdateCheck, Eff.raiseServiceError], true)
  | SubprocResult.nonzero => ([Eff.runUpdateCheck, Eff.logUpdateCheckFailed], false)
  | SubprocResult.ok =>
    match ru with
    | SubprocResult.err =>
        ([Eff.runUpdateCheck, Eff.runPiholeUpdate, Eff.raiseServiceError], true)
    | SubprocResult.nonzero =>
        ([Eff.runUpdateCheck, Eff.runPiholeUpdate, Eff.logPiholeUpdateFailed], false)
    | SubprocResult.ok =>
        ([Eff.runUpdateCheck, Eff.runPiholeUpdate, Eff.logPiholeUpdateSuccess], false)

/-- `handle_button2_held`: `if hold_time >= 1.0`, set
`_waiting_for_confirmation = True`, start the confirmation timer, then
call `display.show_gravity_update()` (its boolean result `dispOk` is an
input); when it returns `False`, `cancel_update()`. -/
def PiHole.handle_button2_held (st : PiHoleState) (hold_time : ℚ) (dispOk : Bool) :
    PiHoleState × List Eff :=
  if hold_time ≥ 1 then
    let st1 := { st with waiting := true }
    let (st2, e2) := PiHole.start_confirmation_timer st1
    if dispOk then (st2, e2 ++ [Eff.showGravityScreen])
    else
      let (st3, e3) := PiHole.cancel_update st2
      (st3, e2 ++ [Eff.showGravityScreen] ++ e3)
  else (st, [])

/-- `handle_button3_held`: as `handle_button2_held` but with threshold
`2.0` and the Pi-hole update screen. -/
def PiHole.handle_button3_held (st : PiHoleState) (hold_time : ℚ) (dispOk : Bool) :
    PiHoleState × List Eff :=
  if hold_time ≥ 2 then
    let st1 := { st with waiting := true }
    let (st2, e2) := PiHole.start_confirmation_timer st1
    if dispOk then (st2, e2 ++ [Eff.showPiholeScreen])
    else
      let (st3, e3) := PiHole.cancel_update st2
      (st3, e2 ++ [Eff.showPiholeScreen] ++ e3)
  else (st, [])

/-- `handle_button2_press`: if `_waiting_for_confirmation`, clear the
confirmation state then run `update_gravity` (outcome `r` is an input). -/
def PiHole.handle_button2_press (st : PiHoleState) (r : SubprocResult) :
    PiHoleState × List Eff :=
  if st.waiting then
    let (st1, e1) := PiHole.clear_confirmation_state st
    (st1, e1 ++ PiHole.update_gravity r)
  else (st, [])

/-- `handle_button3_press`: if `_waiting_for_confirmation`, clear the
confirmation state then run `update_pihole`; the flag records a raised
`ServiceError` propagating out. -/
def PiHole.handle_button3_press (st : PiHoleState) (rc ru : SubprocResult) :
    PiHoleState × List Eff × Bool :=
  if st.waiting then
    let (st1, e1) := PiHole.clear_confirmation_state st
    let (e2, raised) := PiHole.update_pihole rc ru
    (st1, e1 ++ e2, raised)
  else (st, [], false)

/-- `cleanup`: clear the confirmation state. -/
def PiHole.cleanup (st : PiHoleState) : PiHoleState × List Eff :=
  PiHole.clear_confirmation_state st

/-! ## Button routing registered in `main` (main.py)

`main.py` guards menu opening with `manager.is_menu_active()` and routes
confirmation presses by asking each flow whether it is waiting.  The
methods it calls on the manager and the flow objects
(`ButtonManager.is_menu_active`, `ButtonManager.cancel_confirmation`,
`PiHole.show_menu`, `SystemOs.show_menu`, the `request_*` resolvers and
`SystemOs.is_waiting_for_confirmation`) are not present in the sources;
they are modelled from the spec below. -/

/-- Joint state of the two confirmation flows as seen by the routing in
`main`: the Pi-hole update flow and the system-control flow, each with
its awaiting-confirmation flag. -/
structure MgrState where
  piWaiting : Bool
  sysWaiting : Bool
  deriving DecidableEq, Repr

/-- Both flows start `Idle` at process start. -/
def Mgr.init : MgrState := { piWaiting := false, sysWaiting := false }

/-- Modelled from the spec: `ButtonManager.is_menu_active` (missing from
src; called by `main.py`) — whether any flow is `AwaitingConfirmation`. -/
def Mgr.is_menu_active (m : MgrState) : Bool :=
  m.piWaiting || m.sysWaiting

/-- Modelled from the spec: `PiHole.show_menu` (missing from src; called
by `main.py:button1_held`) — `arm` for the Pi-hole update flow: requires
`Idle`, transitions to `AwaitingConfirmation`; fails (state unchanged)
if already `AwaitingConfirmation`. -/
def Mgr.piShowMenu (m : MgrState) : MgrState :=
  if m.piWaiting then m else { m with piWaiting := true }

/-- Modelled from the spec: `SystemOs.show_menu` (missing from src;
called by `main.py:button2_held`) — `arm` for the system-control flow. -/
def Mgr.sysShowMenu (m : MgrState) : MgrState :=
  if m.sysWaiting then m else { m with sysWaiting := true }

/-- Modelled from the spec: the `request_*` resolvers (missing from src;
called by `main.py:button2_pressed`..`button4_pressed`) — `resolve`
requires `AwaitingConfirmation`, cancels the timer and transitions the
flow back to `Idle` before invoking the action. -/
def Mgr.piResolve (m : MgrState) : MgrState :=
  if m.piWaiting then { m with piWaiting := false } else m

/-- Modelled from the spec: resolver for the system-control flow. -/
def Mgr.sysResolve (m : MgrState) : MgrState :=
  if m.sysWaiting then { m with sysWaiting := false } else m

/-- Modelled from the spec: `ButtonManager.cancel_confirmation` (missing
from src; called by `main.py:button1_pressed`) — `cancelActive`:
idempotent, cancels whichever flow is `AwaitingConfirmation`. -/
def Mgr.cancel_confirmation (m : MgrState) : MgrState :=
  { m with piWaiting := false, sysWaiting := false }

/-- Button events delivered through the handlers registered in `main`.
Hold events carry the measured hold duration. -/
inductive Ev
  | b1Held (d : ℚ)
  | b1Press
  | b2Held (d : ℚ)
  | b2Press
  | b3Press
  | b4Press
  deriving DecidableEq, Repr

/-- The handlers registered in `main.py`:
`button1_held` opens the Pi-hole menu only when no menu is active;
`button1_pressed` cancels the active confirmation (else steps
brightness, which does not touch the flows); `button2_held` opens the
system menu only when no menu is active; `button2_pressed`,
`button3_pressed`, `button4_pressed` resolve the system flow when it is
waiting, else the Pi-hole flow when it is waiting. -/
def Mgr.step (m : MgrState) : Ev → MgrState
  | Ev.b1Held _ => if Mgr.is_menu_active m then m else Mgr.piShowMenu m
  | Ev.b1Press => if Mgr.is_menu_active m then Mgr.cancel_confirmation m else m
  | Ev.b2Held _ => if Mgr.is_menu_active m then m else Mgr.sysShowMenu m
  | Ev.b2Press =>
      if m.sysWaiting then Mgr.sysResolve m
      else if m.piWaiting then Mgr.piResolve m else m
  | Ev.b3Press =>
      if m.sysWaiting then Mgr.sysResolve m
      else if m.piWaiting then Mgr.piResolve m else m
  | Ev.b4Press =>
      if m.sysWaiting then Mgr.sysResolve m
      else if m.piWaiting then Mgr.piResolve m else m

/-- The state after delivering a sequence of button events from process
start. -/
def Mgr.run (evs : List Ev) : MgrState :=
  evs.foldl Mgr.step Mgr.init

/-- At most one flow is `AwaitingConfirmation`. -/
def Mgr.MutEx (m : MgrState) : Prop :=
  ¬(m.piWaiting = true ∧ m.sysWaiting = true)

/-! ## Theorems -/

/-- C2: for every hold duration given to `SystemOs.handle_button4_held`,
a duration below the lower threshold (2.0 s) invokes no action, a
duration in `[2.0, 5.0)` invokes exactly the reboot action, and a
duration `≥ 5.0` invokes exactly the shutdown action; the comparison is
made on the single duration value supplied at release. -/
theorem SystemOs.button4_thresholds (d : ℚ) :
    (d < 2 → SystemOs.handle_button4_held d = none) ∧
    (2 ≤ d → d < 5 → SystemOs.handle_button4_held d = some SysAction.reboot) ∧
    (5 ≤ d → SystemOs.handle_button4_held d = some SysAction.shutdown) := by
  refine ⟨?_, ?_, ?_⟩ <;> intros <;>
    simp only [SystemOs.handle_button4_held] <;> split_ifs <;>
    first
      | rfl
      | (exfalso; linarith)

/-- Witness for C2 at sample durations 1 s, 3 s and 6 s. -/
theorem SystemOs.button4_thresholds_witness :
    SystemOs.handle_button4_held 1 = none ∧
    SystemOs.handle_button4_held 3 = some SysAction.reboot ∧
    SystemOs.handle_button4_held 6 = some SysAction.shutdown :=
  ⟨(SystemOs.button4_thresholds 1).1 (by decide),
   (SystemOs.button4_thresholds 3).2.1 (by decide) (by decide),
   (SystemOs.button4_thresholds 6).2.2 (by decide)⟩

/-- C3: evaluation of the callback wiring at the failing input.  For a
`ButtonHandler` constructed with BOTH a press callback and a hold
callback, a physical press only records the press time and never fires
the press callback (`_setup_callbacks` overwrites `when_pressed` with
`_on_press`), although a press-only button does fire it; the release
side is as specified (duration = release − most recent press, and a
release with no recorded press fires nothing). -/
theorem ButtonHandler.press_callback_dropped :
    ButtonHandler.onPressEvent true true none 0 = (some 0, []) ∧
    BEff.pressCb ∉ (ButtonHandler.onPressEvent true true none 0).snd ∧
    (ButtonHandler.onPressEvent true false none 0).snd = [BEff.pressCb] ∧
    ButtonHandler.onReleaseEvent true (some 1) 3 = (none, [BEff.holdCb (3 - 1)]) ∧
    ButtonHandler.onReleaseEvent true none 3 = (none, []) := by
  refine ⟨rfl, by simp [ButtonHandler.onPressEvent, ButtonHandler.whenPressedSlot], rfl, rfl, rfl⟩

/-- The handlers of `main` preserve mutual exclusion of the two
confirmation flows. -/
theorem Mgr.mutEx_step (m : MgrState) (e : Ev) (h : Mgr.MutEx m) :
    Mgr.MutEx (Mgr.step m e) := by
  rcases m with ⟨p, s⟩
  cases e <;> cases p <;> cases s <;>
    simp_all [Mgr.step, Mgr.is_menu_active, Mgr.piShowMenu, Mgr.sysShowMenu,
      Mgr.piResolve, Mgr.sysResolve, Mgr.cancel_confirmation, Mgr.MutEx]

/-- Mutual exclusion is preserved along any event sequence. -/
theorem Mgr.mutEx_foldl (m : MgrState) (evs : List Ev) (h : Mgr.MutEx m) :
    Mgr.MutEx (evs.foldl Mgr.step m) := by
  induction evs generalizing m with
  | nil => exact h
  | cons e t ih => exact ih _ (Mgr.mutEx_step m e h)

/-- C1: along every sequence of button events delivered through the
handlers registered in `main`, at most one of the two confirmation
flows (Pi-hole update, system control) is `AwaitingConfirmation` at any
instant; moreover, while any menu is active, a hold event that would arm
a flow is ignored (the state is unchanged). -/
theorem Mgr.mutual_exclusion :
    (∀ evs : List Ev, Mgr.MutEx (Mgr.run evs)) ∧
    (∀ (m : MgrState) (d : ℚ), Mgr.is_menu_active m = true →
      Mgr.step m (Ev.b1Held d) = m ∧ Mgr.step m (Ev.b2Held d) = m) := by
  constructor
  · intro evs
    exact Mgr.mutEx_foldl Mgr.init evs (by simp [Mgr.MutEx, Mgr.init])
  · intro m d h
    exact ⟨by simp [Mgr.step, h], by simp [Mgr.step, h]⟩

/-- Witness for C1: a concrete event sequence keeps mutual exclusion,
and with the Pi-hole flow awaiting, both arm events are ignored. -/
theorem Mgr.mutual_exclusion_witness :
    Mgr.MutEx (Mgr.run [Ev.b1Held 2, Ev.b2Held 6, Ev.b2Press]) ∧
    (Mgr.step { piWaiting := true, sysWaiting := false } (Ev.b1Held 2) =
        { piWaiting := true, sysWaiting := false } ∧
     Mgr.step { piWaiting := true, sysWaiting := false } (Ev.b2Held 2) =
        { piWaiting := true, sysWaiting := false }) :=
  ⟨Mgr.mutual_exclusion.1 [Ev.b1Held 2, Ev.b2Held 6, Ev.b2Press],
   Mgr.mutual_exclusion.2 { piWaiting := true, sysWaiting := false } 2 rfl⟩

/-- C4 counterexample: with the Pi-hole flow already awaiting
confirmation (timer object 0 pending), a second qualifying hold is NOT a
no-op — the state changes (a fresh timer replaces the old one, which is
cancelled) and the confirmation prompt is rendered again. -/
theorem PiHole.second_arm_not_noop :
    PiHole.handle_button2_held
        { waiting := true, timer := some 0, live := [0], nextId := 1 } 1 true ≠
      ({ waiting := true, timer := some 0, live := [0], nextId := 1 }, []) ∧
    (PiHole.handle_button2_held
        { waiting := true, timer := some 0, live := [0], nextId := 1 } 1 true).fst.timer = some 1 ∧
    Eff.timerCancel 0 ∈ (PiHole.handle_button2_held
        { waiting := true, timer := some 0, live := [0], nextId := 1 } 1 true).snd ∧
    Eff.timerStart 1 ∈ (PiHole.handle_button2_held
        { waiting := true, timer := some 0, live := [0], nextId := 1 } 1 true).snd ∧
    Eff.showGravityScreen ∈ (PiHole.handle_button2_held
        { waiting := true, timer := some 0, live := [0], nextId := 1 } 1 true).snd := by
  decide

/-- C4 amended: a qualifying hold while the Pi-hole flow is already
awaiting confirmation re-arms the flow — the flag stays set, the old
timer (if any) is cancelled and a fresh confirmation timer is started,
and the prompt is rendered again. -/
theorem PiHole.second_arm_restarts (st : PiHoleState) (d : ℚ)
    (hw : st.waiting = true) (hd : 1 ≤ d) :
    (PiHole.handle_button2_held st d true).fst.waiting = true ∧
    (PiHole.handle_button2_held st d true).fst.timer = some st.nextId ∧
    (PiHole.handle_button2_held st d true).fst.nextId = st.nextId + 1 ∧
    Eff.showGravityScreen ∈ (PiHole.handle_button2_held st d true).snd ∧
    (∀ id, st.timer = some id →
      Eff.timerCancel id ∈ (PiHole.handle_button2_held st d true).snd) := by
  rcases st with ⟨w, tm, lv, n⟩
  cases tm <;>
    simp_all [PiHole.handle_button2_held, PiHole.start_confirmation_timer,
      PiHole.clear_confirmation_timer]

/-- Witness for the amended C4 at a concrete awaiting state. -/
theorem PiHole.second_arm_restarts_witness :
    (PiHole.handle_button2_held
        { waiting := true, timer := some 0, live := [0], nextId := 1 } 1 true).fst.waiting = true ∧
    (PiHole.handle_button2_held
        { waiting := true, timer := some 0, live := [0], nextId := 1 } 1 true).fst.timer = some 1 ∧
    Eff.timerCancel 0 ∈ (PiHole.handle_button2_held
        { waiting := true, timer := some 0, live := [0], nextId := 1 } 1 true).snd :=
  ⟨(PiHole.second_arm_restarts
      { waiting := true, timer := some 0, live := [0], nextId := 1 } 1 rfl (by decide)).1,
   (PiHole.second_arm_restarts
      { waiting := true, timer := some 0, live := [0], nextId := 1 } 1 rfl (by decide)).2.1,
   (PiHole.second_arm_restarts
      { waiting := true, timer := some 0, live := [0], nextId := 1 } 1 rfl (by decide)).2.2.2.2 0 rfl⟩

/-- C5 counterexample: even on full success, `update_pihole` never
switches the display back to the default PADD view. -/
theorem PiHole.update_pihole_never_restores_view :
    Eff.switchToPadd ∉ (PiHole.update_pihole SubprocResult.ok SubprocResult.ok).fst := by
  decide

/-- C5 amended: `update_gravity` restores the default view exactly once
after the feedback delay on every exit path (success, non-zero exit,
subprocess exception); `update_pihole` restores the default view on no
path at all, and raises `ServiceError` whenever the update check (or the
update itself) hits a subprocess exception. -/
theorem PiHole.view_restore_paths :
    (∀ r, (PiHole.update_gravity r).count Eff.switchToPadd = 1 ∧
      Eff.sleepFeedback ∈ PiHole.update_gravity r) ∧
    (∀ rc ru, Eff.switchToPadd ∉ (PiHole.update_pihole rc ru).fst) ∧
    (∀ ru, (PiHole.update_pihole SubprocResult.err ru).snd = true) ∧
    (PiHole.update_pihole SubprocResult.ok SubprocResult.err).snd = true := by
  refine ⟨?_, ?_, ?_, rfl⟩
  · intro r; cases r <;> exact ⟨rfl, by decide⟩
  · intro rc ru; cases rc <;> cases ru <;> decide
  · intro ru; cases ru <;> rfl

/-- C6: when the presentation layer fails to switch to the confirmation
view (`show_gravity_update` / `show_pihole_update` returns `False`) on a
qualifying hold, the just-armed flow is immediately cancelled: the
awaiting-confirmation flag ends up reset and the just-started timer is
cancelled. -/
theorem PiHole.failed_prompt_cancels (st : PiHoleState) (d : ℚ) :
    (1 ≤ d →
      (PiHole.handle_button2_held st d false).fst.waiting = false ∧
      (PiHole.handle_button2_held st d false).fst.timer = none ∧
      Eff.timerCancel st.nextId ∈ (PiHole.handle_button2_held st d false).snd) ∧
    (2 ≤ d →
      (PiHole.handle_button3_held st d false).fst.waiting = false ∧
      (PiHole.handle_button3_held st d false).fst.timer = none ∧
      Eff.timerCancel st.nextId ∈ (PiHole.handle_button3_held st d false).snd) := by
  constructor <;> intro hd <;> rcases st with ⟨w, tm, lv, n⟩ <;> cases tm <;>
    simp_all [PiHole.handle_button2_held, PiHole.handle_button3_held,
      PiHole.start_confirmation_timer, PiHole.clear_confirmation_timer,
      PiHole.cancel_update, PiHole.clear_confirmation_state]

/-- Witness for C6 from the idle initial state with a 2-second hold. -/
theorem PiHole.failed_prompt_cancels_witness :
    ((PiHole.handle_button2_held PiHole.init 2 false).fst.waiting = false ∧
     (PiHole.handle_button2_held PiHole.init 2 false).fst.timer = none ∧
     Eff.timerCancel 0 ∈ (PiHole.handle_button2_held PiHole.init 2 false).snd) ∧
    ((PiHole.handle_button3_held PiHole.init 2 false).fst.waiting = false ∧
     (PiHole.handle_button3_held PiHole.init 2 false).fst.timer = none ∧
     Eff.timerCancel 0 ∈ (PiHole.handle_button3_held PiHole.init 2 false).snd) :=
  ⟨(PiHole.failed_prompt_cancels PiHole.init 2).1 (by decide),
   (PiHole.failed_prompt_cancels PiHole.init 2).2 (by decide)⟩

/-- C7: arming the Pi-hole flow (qualifying hold, prompt shown) and then
letting the confirmation timer fire leaves the flow Idle (flag reset,
timer cleared) with exactly one cancellation message and exactly one
switch back to the default view; the timeout path logs the distinct
"timer expired" entry that a plain user cancel of the same armed state
does not produce. -/
theorem PiHole.timeout_single_notification (st : PiHoleState) (d : ℚ) (hd : 1 ≤ d) :
    (PiHole.handle_timeout (PiHole.handle_button2_held st d true).fst).fst.waiting = false ∧
    (PiHole.handle_timeout (PiHole.handle_button2_held st d true).fst).fst.timer = none ∧
    (PiHole.handle_timeout
        (PiHole.handle_button2_held st d true).fst).snd.count Eff.printUpdateCancelled = 1 ∧
    (PiHole.handle_timeout
        (PiHole.handle_button2_held st d true).fst).snd.count Eff.switchToPadd = 1 ∧
    Eff.logTimerExpired ∈ (PiHole.handle_timeout (PiHole.handle_button2_held st d true).fst).snd ∧
    Eff.logTimerExpired ∉ (PiHole.cancel_update (PiHole.handle_button2_held st d true).fst).snd := by
  rcases st with ⟨w, tm, lv, n⟩
  cases tm <;>
    simp_all [PiHole.handle_button2_held, PiHole.start_confirmation_timer,
      PiHole.clear_confirmation_timer, PiHole.handle_timeout, PiHole.cancel_update,
      PiHole.clear_confirmation_state, List.count_cons]

/-- Witness for C7 from the idle initial state with a 1-second hold. -/
theorem PiHole.timeout_single_notification_witness :
    (PiHole.handle_timeout (PiHole.handle_button2_held PiHole.init 1 true).fst).fst.waiting = false ∧
    (PiHole.handle_timeout
        (PiHole.handle_button2_held PiHole.init 1 true).fst).snd.count Eff.printUpdateCancelled = 1 :=
  ⟨(PiHole.timeout_single_notification PiHole.init 1 (by decide)).1,
   (PiHole.timeout_single_notification PiHole.init 1 (by decide)).2.2.1⟩

/-- C8: from an awaiting state with pending timer object `id`, every
exit path — confirm via button 2, confirm via button 3, explicit cancel,
timeout — cancels the pending timer (it is not merely left to expire)
and leaves no timer attached; after a resolve, a stale firing of the
previously scheduled timeout changes nothing and produces no second
cancellation notification. -/
theorem PiHole.resolve_cancels_timer (st : PiHoleState) (id : Nat)
    (r rc ru : SubprocResult) (htm : st.timer = some id) (hw : st.waiting = true) :
    ((PiHole.handle_button2_press st r).fst.timer = none ∧
     Eff.timerCancel id ∈ (PiHole.handle_button2_press st r).snd ∧
     (PiHole.handle_timeout (PiHole.handle_button2_press st r).fst).fst =
       (PiHole.handle_button2_press st r).fst ∧
     (PiHole.handle_timeout
         (PiHole.handle_button2_press st r).fst).snd.count Eff.printUpdateCancelled = 0) ∧
    ((PiHole.handle_button3_press st rc ru).fst.timer = none ∧
     Eff.timerCancel id ∈ (PiHole.handle_button3_press st rc ru).snd.fst) ∧
    ((PiHole.cancel_update st).fst.timer = none ∧
     Eff.timerCancel id ∈ (PiHole.cancel_update st).snd) ∧
    ((PiHole.handle_timeout st).fst.timer = none ∧
     Eff.timerCancel id ∈ (PiHole.handle_timeout st).snd) := by
  rcases st with ⟨w, tm, lv, n⟩
  simp only at htm hw
  subst hw
  subst htm
  simp_all [PiHole.handle_button2_press, PiHole.handle_button3_press,
    PiHole.clear_confirmation_state, PiHole.clear_confirmation_timer,
    PiHole.cancel_update, PiHole.handle_timeout, PiHole.update_gravity,
    PiHole.update_pihole, List.count_cons]

/-- Witness for C8 at a concrete awaiting state with timer object 5. -/
theorem PiHole.resolve_cancels_timer_witness :
    (PiHole.handle_button2_press
        { waiting := true, timer := some 5, live := [5], nextId := 6 }
        SubprocResult.ok).fst.timer = none ∧
    Eff.timerCancel 5 ∈ (PiHole.handle_button2_press
        { waiting := true, timer := some 5, live := [5], nextId := 6 }
        SubprocResult.ok).snd ∧
    (PiHole.cancel_update
        { waiting := true, timer := some 5, live := [5], nextId := 6 }).fst.timer = none :=
  ⟨(PiHole.resolve_cancels_timer
      { waiting := true, timer := some 5, live := [5], nextId := 6 } 5
      SubprocResult.ok SubprocResult.ok SubprocResult.ok rfl rfl).1.1,
   (PiHole.resolve_cancels_timer
      { waiting := true, timer := some 5, live := [5], nextId := 6 } 5
      SubprocResult.ok SubprocResult.ok SubprocResult.ok rfl rfl).1.2.1,
   (PiHole.resolve_cancels_timer
      { waiting := true, timer := some 5, live := [5], nextId := 6 } 5
      SubprocResult.ok SubprocResult.ok SubprocResult.ok rfl rfl).2.2.1.1⟩

/-- C9: `cancel_update` on an idle flow is a no-op — it changes no state
and produces no effects — and applying it twice is observably
equivalent to applying it once (the second application is always a
no-op). -/
theorem PiHole.cancel_idempotent (st : PiHoleState) :
    (st.waiting = false → PiHole.cancel_update st = (st, [])) ∧
    PiHole.cancel_update (PiHole.cancel_update st).fst =
      ((PiHole.cancel_update st).fst, []) := by
  constructor
  · intro h
    simp [PiHole.cancel_update, h]
  · rcases st with ⟨w, tm, lv, n⟩
    cases w <;> cases tm <;>
      simp [PiHole.cancel_update, PiHole.clear_confirmation_state,
        PiHole.clear_confirmation_timer]

/-- Witness for C9: no-op on the initial idle state; second cancel after
a real cancel is a no-op. -/
theorem PiHole.cancel_idempotent_witness :
    PiHole.cancel_update PiHole.init = (PiHole.init, []) ∧
    PiHole.cancel_update
        (PiHole.cancel_update { waiting := true, timer := some 0, live := [0], nextId := 1 }).fst =
      ((PiHole.cancel_update { waiting := true, timer := some 0, live := [0], nextId := 1 }).fst, []) :=
  ⟨(PiHole.cancel_idempotent PiHole.init).1 rfl,
   (PiHole.cancel_idempotent { waiting := true, timer := some 0, live := [0], nextId := 1 }).2⟩

/-- The `PiHole` flow's internal invariant: when not awaiting
confirmation there is no timer attached, and the timer objects started
and not yet cancelled are exactly the one referenced by
`_confirmation_timer` (so at most one confirmation timer is live). -/
def PiHole.Inv (st : PiHoleState) : Prop :=
  (st.waiting = false → st.timer = none) ∧ st.live = st.timer.toList

/-- C10: the Pi-hole flow keeps at most one confirmation timer live at
any time, and whenever `_waiting_for_confirmation` is `False` after one
of its operations returns, `_confirmation_timer` is `None`:
`_start_confirmation_timer` cancels any existing timer before creating
the new one (shown by its exact effect trace), the live-timer set never
holds more than one element, and every operation preserves the
invariant. -/
theorem PiHole.timer_lifecycle_invariant (st : PiHoleState) (h : PiHole.Inv st) :
    (∀ id, st.timer = some id →
      (PiHole.start_confirmation_timer st).snd =
        [Eff.timerCancel id, Eff.timerStart st.nextId]) ∧
    (st.timer = none →
      (PiHole.start_confirmation_timer st).snd = [Eff.timerStart st.nextId]) ∧
    st.live.length ≤ 1 ∧
    (∀ (d : ℚ) (dispOk : Bool), PiHole.Inv (PiHole.handle_button2_held st d dispOk).fst) ∧
    (∀ (d : ℚ) (dispOk : Bool), PiHole.Inv (PiHole.handle_button3_held st d dispOk).fst) ∧
    (∀ r, PiHole.Inv (PiHole.handle_button2_press st r).fst) ∧
    (∀ rc ru, PiHole.Inv (PiHole.handle_button3_press st rc ru).fst) ∧
    PiHole.Inv (PiHole.cancel_update st).fst ∧
    PiHole.Inv (PiHole.handle_timeout st).fst ∧
    PiHole.Inv (PiHole.cleanup st).fst := by
  obtain ⟨h1, h2⟩ := h
  rcases st with ⟨w, tm, lv, n⟩
  simp only at h1 h2
  subst h2
  refine ⟨?_, ?_, ?_, ?_, ?_, ?_, ?_, ?_, ?_, ?_⟩
  · intro id hid
    cases tm <;>
      simp_all [PiHole.start_confirmation_timer, PiHole.clear_confirmation_timer,
        Option.toList]
  · intro hid
    cases tm <;>
      simp_all [PiHole.start_confirmation_timer, PiHole.clear_confirmation_timer,
        Option.toList]
  · cases tm <;> simp [Option.toList]
  · intro d dispOk
    by_cases hd : d ≥ 1
    · cases dispOk <;> cases tm <;> cases w <;>
        simp_all [PiHole.handle_button2_held, PiHole.start_confirmation_timer,
          PiHole.clear_confirmation_timer, PiHole.cancel_update,
          PiHole.clear_confirmation_state, PiHole.Inv, Option.toList]
    · cases tm <;> cases w <;>
        simp_all [PiHole.handle_button2_held, if_neg hd, PiHole.Inv, Option.toList]
  · intro d dispOk
    by_cases hd : d ≥ 2
    · cases dispOk <;> cases tm <;> cases w <;>
        simp_all [PiHole.handle_button3_held, PiHole.start_confirmation_timer,
          PiHole.clear_confirmation_timer, PiHole.cancel_update,
          PiHole.clear_confirmation_state, PiHole.Inv, Option.toList]
    · cases tm <;> cases w <;>
        simp_all [PiHole.handle_button3_held, if_neg hd, PiHole.Inv, Option.toList]
  · intro r
    cases tm <;> cases w <;>
      simp_all [PiHole.handle_button2_press, PiHole.clear_confirmation_state,
        PiHole.clear_confirmation_timer, PiHole.update_gravity, PiHole.Inv, Option.toList]
  · intro rc ru
    cases tm <;> cases w <;>
      simp_all [PiHole.handle_button3_press, PiHole.clear_confirmation_state,
        PiHole.clear_confirmation_timer, PiHole.update_pihole, PiHole.Inv, Option.toList]
  · cases tm <;> cases w <;>
      simp_all [PiHole.cancel_update, PiHole.clear_confirmation_state,
        PiHole.clear_confirmation_timer, PiHole.Inv, Option.toList]
  · cases tm <;> cases w <;>
      simp_all [PiHole.handle_timeout, PiHole.cancel_update,
        PiHole.clear_confirmation_state, PiHole.clear_confirmation_timer, PiHole.Inv,
        Option.toList]
  · cases tm <;> cases w <;>
      simp_all [PiHole.cleanup, PiHole.clear_confirmation_state,
        PiHole.clear_confirmation_timer, PiHole.Inv, Option.toList]

/-- Witness for C10 at the initial state. -/
theorem PiHole.timer_lifecycle_invariant_witness :
    (PiHole.start_confirmation_timer PiHole.init).snd = [Eff.timerStart 0] ∧
    PiHole.Inv (PiHole.cancel_update PiHole.init).fst :=
  ⟨(PiHole.timer_lifecycle_invariant PiHole.init ⟨fun _ => rfl, rfl⟩).2.1 rfl,
   (PiHole.timer_lifecycle_invariant PiHole.init ⟨fun _ => rfl, rfl⟩).2.2.2.2.2.2.2.1⟩
